import Mathlib

/-!
Shallow embedding of the clinical documentation system
(`app/backend/main.py` and `app/backend/process.py`).

Strings are modelled by Lean `String`; Python `str.lower()` by ASCII
character case folding; Python's substring operator `in` by a scan over
list tails; the two regular expressions of the extractor by dedicated
backtracking matchers over `List Char`.  The BioClinicalBERT embedding
call and the FLAN-T5 generation call are external collaborators and are
modelled as function parameters; an embedding call that raises an
exception is modelled by the parameter returning `none`.
-/

namespace ClinicalDoc

/-- Model of Python `str.lower()` (ASCII case folding, which is all the
vocabularies and patterns of the system use). -/
def pyLower (s : String) : String := String.mk (s.data.map Char.toLower)

/-- Model of Python's substring test `needle in hay`. -/
def strIn (needle hay : String) : Bool :=
  hay.data.tails.any (fun t => needle.data.isPrefixOf t)

/-- Model of Python `str(x)` applied to an optional string field
(`str(None)` is `"None"`, which is what an f-string renders). -/
def pyStr : Option String → String
  | none => "None"
  | some s => s

/-- Symptom vocabulary (safe list), `ClinicalDocumentationSystem.symptoms`. -/
def symptoms : List String :=
  ["headache", "chest pain", "nausea", "dizziness", "fatigue",
   "fever", "breathlessness", "cough", "sore throat", "vomiting",
   "abdominal pain", "back pain", "joint pain", "muscle pain",
   "shortness of breath", "palpitations", "sweating", "chills"]

/-- Medication vocabulary (safe list), `ClinicalDocumentationSystem.medications`. -/
def medications : List String :=
  ["metformin", "aspirin", "paracetamol", "ibuprofen", "lisinopril",
   "amlodipine", "omeprazole", "levothyroxine", "atorvastatin",
   "losartan", "metoprolol", "albuterol", "insulin", "warfarin",
   "clopidogrel", "prednisone", "amoxicillin", "azithromycin"]

/-- `ClinicalDocumentationSystem.time_patterns`; a Python dict with
insertion-ordered iteration, modelled as an association list in the same
order. -/
def time_patterns : List (String × List String) :=
  [("morning", ["morning", "am", "breakfast"]),
   ("afternoon", ["afternoon", "lunch", "noon"]),
   ("evening", ["evening", "dinner"]),
   ("night", ["night", "bedtime", "pm"])]

/-- `ClinicalDocumentationSystem.food_patterns`, in dict insertion order. -/
def food_patterns : List (String × List String) :=
  [("after food", ["after food", "after eating", "after meal", "after breakfast", "after lunch", "after dinner"]),
   ("before food", ["before food", "before eating", "before meal", "before breakfast", "before lunch", "before dinner"]),
   ("with food", ["with food", "with meal", "with meals", "during meal"]),
   ("empty stomach", ["empty stomach", "on empty stomach", "without food"])]

/-- `ClinicalDocumentationSystem.frequency_markers`. -/
def frequency_markers : List String :=
  ["again", "twice", "three times", "multiple times", "every day", "daily", "since yesterday"]

/-- `_extract_symptom`: first vocabulary entry (in list order) occurring in
the lowercased text. -/
def extract_symptom (text : String) : Option String :=
  let text_lower := pyLower text
  symptoms.find? (fun s => strIn s text_lower)

/-- `_extract_medication`: same policy over the medication vocabulary. -/
def extract_medication (text : String) : Option String :=
  let text_lower := pyLower text
  medications.find? (fun m => strIn m text_lower)

/-- The nested loop `for key, patterns in table: for pattern in patterns:
if pattern in text_lower: return key`, shared by the time-of-day and
food-relation scans. -/
def firstKeyMatching (table : List (String × List String)) (text_lower : String) : Option String :=
  (table.find? (fun kv => kv.2.any (fun p => strIn p text_lower))).map (fun kv => kv.1)

/-- Python `\d` restricted to ASCII digits. -/
def pyIsDigit (c : Char) : Bool := c.isDigit

/-- Python `\s` (ASCII whitespace; the formfeed and vertical-tab cases are
not representable in the inputs the system handles and are omitted). -/
def pyIsSpace (c : Char) : Bool := c.isWhitespace

/-- Match the alternation `(am|pm)` at the start of the character list,
returning the matched characters and the rest. -/
def matchAmPm : List Char → Option (List Char × List Char)
  | 'a' :: 'm' :: rest => some (['a', 'm'], rest)
  | 'p' :: 'm' :: rest => some (['p', 'm'], rest)
  | _ => none

/-- Match `\d{2}` at the start. -/
def matchTwoDigits : List Char → Option (List Char × List Char)
  | a :: b :: rest =>
    if pyIsDigit a && pyIsDigit b then some ([a, b], rest) else none
  | _ => none

/-- Match `\s*(am|pm)` at the start.  Greedy whitespace consumption is
exact here because `am`/`pm` begin with non-whitespace characters. -/
def clockFinish (cs : List Char) : Option (List Char) :=
  let sp := cs.takeWhile pyIsSpace
  match matchAmPm (cs.dropWhile pyIsSpace) with
  | some (m, _) => some (sp ++ m)
  | none => none

/-- Match `:?(\d{2})?\s*(am|pm)` at the start, trying the alternatives of
the two optional groups in the greedy backtracking order of the Python
`re` engine: colon with minutes, colon alone, minutes alone, neither. -/
def clockTail (cs : List Char) : Option (List Char) :=
  (match cs with
   | ':' :: rest =>
     (match matchTwoDigits rest with
      | some (dd, rest2) => (clockFinish rest2).map (fun t => ':' :: (dd ++ t))
      | none => none)
     <|> (clockFinish rest).map (fun t => ':' :: t)
   | _ => none)
  <|> (match matchTwoDigits cs with
       | some (dd, rest2) => (clockFinish rest2).map (fun t => dd ++ t)
       | none => none)
  <|> clockFinish cs

/-- Match the clock-time pattern `(\d{1,2}):?(\d{2})?\s*(am|pm)` at the
start of the character list, preferring two leading digits over one
(greedy `{1,2}`) and backtracking to one digit when needed, as the Python
`re` engine does.  Returns the whole matched span (group 0). -/
def clockMatchAt (cs : List Char) : Option (List Char) :=
  match cs with
  | a :: rest =>
    if pyIsDigit a then
      (match rest with
       | b :: rest2 =>
         if pyIsDigit b then (clockTail rest2).map (fun t => a :: b :: t) else none
       | [] => none)
      <|> (clockTail rest).map (fun t => a :: t)
    else none
  | [] => none

/-- Model of `re.search`: try the pattern at each start position from the
left, returning the first (leftmost) match. -/
def reSearch (matchAt : List Char → Option (List Char)) : List Char → Option (List Char)
  | [] => matchAt []
  | c :: rest => matchAt (c :: rest) <|> reSearch matchAt rest

/-- `re.search(r'(\d{1,2}):?(\d{2})?\s*(am|pm)', text_lower)`, group 0. -/
def clockSearch (cs : List Char) : Option (List Char) :=
  reSearch clockMatchAt cs

/-- Match `\d+\.?\d*\s*<unit>` at the start (the milligram and milliliter
dose patterns).  The character classes digit, dot, whitespace and the
letters of the unit are pairwise disjoint, so greedy consumption
coincides with the backtracking regex semantics. -/
def doseNumUnitAt (unit : List Char) (cs : List Char) : Option (List Char) :=
  let ds := cs.takeWhile pyIsDigit
  let r1 := cs.dropWhile pyIsDigit
  if ds.isEmpty then none
  else
    let dotAndRest : List Char × List Char :=
      match r1 with
      | '.' :: t => (['.'], t)
      | _ => ([], r1)
    let ds2 := dotAndRest.2.takeWhile pyIsDigit
    let r3 := dotAndRest.2.dropWhile pyIsDigit
    let sp := r3.takeWhile pyIsSpace
    let r4 := r3.dropWhile pyIsSpace
    if unit.isPrefixOf r4 then some (ds ++ dotAndRest.1 ++ ds2 ++ sp ++ unit)
    else none

/-- Match `\d+\s*<word>[s]?` at the start (the tablet-count and unit-count
dose patterns); the optional plural `s` is taken greedily. -/
def doseCountUnitAt (word : List Char) (cs : List Char) : Option (List Char) :=
  let ds := cs.takeWhile pyIsDigit
  let r1 := cs.dropWhile pyIsDigit
  if ds.isEmpty then none
  else
    let sp := r1.takeWhile pyIsSpace
    let r2 := r1.dropWhile pyIsSpace
    if word.isPrefixOf r2 then
      match r2.drop word.length with
      | 's' :: _ => some (ds ++ sp ++ word ++ ['s'])
      | _ => some (ds ++ sp ++ word)
    else none

/-- `_extract_dose`: tries the four dose patterns in order (milligram,
tablet count, unit count, milliliter) on the lowercased text and returns
the first pattern's first match. -/
def extract_dose (text : String) : Option String :=
  let cs := (pyLower text).data
  match reSearch (doseNumUnitAt ['m', 'g']) cs with
  | some m => some (String.mk m)
  | none =>
    match reSearch (doseCountUnitAt ['t', 'a', 'b', 'l', 'e', 't']) cs with
    | some m => some (String.mk m)
    | none =>
      match reSearch (doseCountUnitAt ['u', 'n', 'i', 't']) cs with
      | some m => some (String.mk m)
      | none => (reSearch (doseNumUnitAt ['m', 'l']) cs).map String.mk

/-- `_extract_time_of_day`: literal clock-time match first (returned
verbatim, as matched on the lowercased text), then the categorical scan
over `time_patterns` in dict order, then the sentinel. -/
def extract_time_of_day (text : String) : String :=
  let text_lower := pyLower text
  match clockSearch text_lower.data with
  | some m => String.mk m
  | none =>
    match firstKeyMatching time_patterns text_lower with
    | some key => key
    | none => "unspecified time"

/-- `_extract_food_relation`. -/
def extract_food_relation (text : String) : Option String :=
  firstKeyMatching food_patterns (pyLower text)

/-- `_extract_frequency_marker`. -/
def extract_frequency_marker (text : String) : Option String :=
  frequency_markers.find? (fun m => strIn m (pyLower text))

/-- A symptom event dict.  The seeded demo events lack the `raw_text` key;
they are modelled with `raw_text := ""` (the field is never read). -/
structure SymptomEvent where
  symptom : String
  time_of_day : String
  relation_to_food : Option String
  frequency_marker : Option String
  timestamp : String
  raw_text : String
deriving DecidableEq, Repr

/-- A medication event dict.  `dose` is optional because the seeded
`lisinopril` demo event stores `None`; events built by
`record_medication` always store a string. -/
structure MedicationEvent where
  medication : String
  dose : Option String
  time_of_day : String
  relation_to_food : Option String
  route : String
  timestamp : String
  note : String
  raw_text : String
deriving DecidableEq, Repr

/-- An entry of `self.event_store`, the reference list kept parallel to
the FAISS index: `{"type": ..., "data": event}`. -/
inductive StoredEvent
  | symptom (e : SymptomEvent)
  | medication (e : MedicationEvent)
deriving DecidableEq, Repr

structure PatientInfo where
  age : Nat
  gender : String
deriving DecidableEq, Repr

/-- The mutable state of a `ClinicalDocumentationSystem` object.  `α` is
the abstract type of embedding vectors (the FAISS index is a flat list of
them, in insertion order). -/
structure State (α : Type) where
  patient_info : PatientInfo
  symptom_events : List SymptomEvent
  medication_events : List MedicationEvent
  faiss_index : List α
  event_store : List StoredEvent
deriving DecidableEq, Repr

/-- The state built by `ClinicalDocumentationSystem.__init__`: the patient
state is seeded with two demo symptom events and two demo medication
events, while the FAISS index and its parallel event store start empty. -/
def initState (α : Type) : State α where
  patient_info := { age := 62, gender := "male" }
  symptom_events :=
    [{ symptom := "headache", time_of_day := "morning",
       relation_to_food := some "after food", frequency_marker := some "again",
       timestamp := "2026-01-08T09:30", raw_text := "" },
     { symptom := "chest pain", time_of_day := "night",
       relation_to_food := some "after food", frequency_marker := none,
       timestamp := "2026-01-07T21:15", raw_text := "" }]
  medication_events :=
    [{ medication := "metformin", dose := some "1000 mg", time_of_day := "morning",
       relation_to_food := some "after food", route := "oral",
       timestamp := "2026-01-08T08:00", note := "patient reported intake", raw_text := "" },
     { medication := "lisinopril", dose := none, time_of_day := "night",
       relation_to_food := some "before food", route := "oral",
       timestamp := "2026-01-07T19:30", note := "patient reported intake", raw_text := "" }]
  faiss_index := []
  event_store := []

/-- The observable outcome of one CLI operation (the printed messages of
the Python methods, reified as values).  `embedFailed` models the
exception a failing `_get_embedding` call propagates to `run`'s handler. -/
inductive Outcome
  | noSymptomMatch (hint : String)
  | noMedicationMatch (hint : String)
  | symptomDocumented (symptom time : String) (food freq : Option String)
  | medicationDocumented (medication : String) (dose : Option String) (time : String) (food : Option String)
  | embedFailed
deriving DecidableEq, Repr

/-- The symptom event `record_symptom` builds for input `text` once the
symptom `sym` has been extracted, timestamped `now`. -/
def mkSymptomEvent (now text sym : String) : SymptomEvent where
  symptom := sym
  time_of_day := extract_time_of_day text
  relation_to_food := extract_food_relation text
  frequency_marker := extract_frequency_marker text
  timestamp := now
  raw_text := text

/-- The medication event `record_medication` builds for input `text` once
the medication `med` has been extracted (`dose if dose else "dose not
specified"`), timestamped `now`. -/
def mkMedicationEvent (now text med : String) : MedicationEvent where
  medication := med
  dose := some (match extract_dose text with
                | some d => d
                | none => "dose not specified")
  time_of_day := extract_time_of_day text
  relation_to_food := extract_food_relation text
  route := "oral"
  timestamp := now
  note := "patient reported intake"
  raw_text := text

/-- The canonical embedding input for a symptom event:
`f"symptom {symptom} {time_of_day}"`. -/
def symptomEmbedText (sym tod : String) : String :=
  "symptom " ++ sym ++ " " ++ tod

/-- The canonical embedding input for a medication event:
`f"medication {medication} {dose}"`, where `dose` is the raw extraction
result (so a missing dose renders as `None`). -/
def medicationEmbedText (med : String) (dose : Option String) : String :=
  "medication " ++ med ++ " " ++ pyStr dose

/-- `record_symptom`.  `embed` models `_get_embedding`; `embed t = none`
models the call raising an exception, which in the Python code happens
after the event was already appended to `patient_state["symptom_events"]`
but before the FAISS index and the event store were touched. -/
def record_symptom {α : Type} (embed : String → Option α) (now : String)
    (s : State α) (text : String) : State α × Outcome :=
  match extract_symptom text with
  | none => (s, .noSymptomMatch (String.intercalate ", " (symptoms.take 10)))
  | some sym =>
    let event := mkSymptomEvent now text sym
    let s1 := { s with symptom_events := s.symptom_events ++ [event] }
    match embed (symptomEmbedText sym event.time_of_day) with
    | none => (s1, .embedFailed)
    | some v =>
      ({ s1 with faiss_index := s1.faiss_index ++ [v],
                 event_store := s1.event_store ++ [.symptom event] },
       .symptomDocumented sym event.time_of_day event.relation_to_food event.frequency_marker)

/-- `record_medication`, with the same failure model as `record_symptom`. -/
def record_medication {α : Type} (embed : String → Option α) (now : String)
    (s : State α) (text : String) : State α × Outcome :=
  match extract_medication text with
  | none => (s, .noMedicationMatch (String.intercalate ", " (medications.take 10)))
  | some med =>
    let dose := extract_dose text
    let event := mkMedicationEvent now text med
    let s1 := { s with medication_events := s.medication_events ++ [event] }
    match embed (medicationEmbedText med dose) with
    | none => (s1, .embedFailed)
    | some v =>
      ({ s1 with faiss_index := s1.faiss_index ++ [v],
                 event_store := s1.event_store ++ [.medication event] },
       .medicationDocumented med event.dose event.time_of_day event.relation_to_food)

/-- One entry of the `all_events` list `show_timeline` builds before
sorting. -/
structure TimelineItem where
  type : String
  timestamp : String
  description : String
  details : StoredEvent
deriving DecidableEq, Repr

/-- The timeline entry built from a symptom event. -/
def symptomItem (e : SymptomEvent) : TimelineItem where
  type := "SYMPTOM"
  timestamp := e.timestamp
  description := e.symptom ++ " at " ++ e.time_of_day
  details := .symptom e

/-- The timeline entry built from a medication event. -/
def medicationItem (e : MedicationEvent) : TimelineItem where
  type := "MEDICATION"
  timestamp := e.timestamp
  description := e.medication ++ " " ++ pyStr e.dose ++ " at " ++ e.time_of_day
  details := .medication e

/-- The unsorted `all_events` list: symptom entries first, then
medication entries, each stream in insertion order. -/
def allTimelineItems {α : Type} (s : State α) : List TimelineItem :=
  s.symptom_events.map symptomItem ++ s.medication_events.map medicationItem

/-- The comparison `show_timeline` sorts by: the `timestamp` string keys,
under Python's lexicographic string order. -/
def tsLe (a b : TimelineItem) : Bool := decide (a.timestamp ≤ b.timestamp)

/-- `all_events.sort(key=lambda x: x["timestamp"])`: Python's sort is
stable, so it is modelled by the stable `List.mergeSort` (any two stable
sorts agree). -/
def sortedTimelineItems {α : Type} (s : State α) : List TimelineItem :=
  (allTimelineItems s).mergeSort tsLe

/-- What `show_timeline` displays. -/
inductive TimelineView
  | noEvents
  | timeline (items : List TimelineItem)
deriving DecidableEq, Repr

/-- `show_timeline`: sorts the merged streams by timestamp and renders
them, or prints the `"No events documented yet."` placeholder when the
store is empty. -/
def show_timeline {α : Type} (s : State α) : TimelineView :=
  let items := sortedTimelineItems s
  if items.isEmpty then .noEvents else .timeline items

/-- The outcome of a frequency query: either the
`"No documented instances of '<name>'"` message or the report over the
matching events. -/
inductive FreqReport (ev : Type)
  | noInstances (name : String)
  | report (events : List ev)
deriving DecidableEq, Repr

/-- The list comprehension of `symptom_frequency`: events of the symptom
stream whose name equals the query, case-insensitively. -/
def matchingSymptoms {α : Type} (s : State α) (symptom : String) : List SymptomEvent :=
  s.symptom_events.filter (fun e => pyLower e.symptom == pyLower symptom)

/-- The list comprehension of `medication_frequency`. -/
def matchingMedications {α : Type} (s : State α) (medication : String) : List MedicationEvent :=
  s.medication_events.filter (fun e => pyLower e.medication == pyLower medication)

/-- `symptom_frequency`: a read-only query; the returned state is the
input state (the Python method never writes). -/
def symptom_frequency {α : Type} (s : State α) (symptom : String) :
    State α × FreqReport SymptomEvent :=
  let matching := matchingSymptoms s symptom
  (s, if matching.isEmpty then .noInstances symptom else .report matching)

/-- `medication_frequency`: a read-only query. -/
def medication_frequency {α : Type} (s : State α) (medication : String) :
    State α × FreqReport MedicationEvent :=
  let matching := matchingMedications s medication
  (s, if matching.isEmpty then .noInstances medication else .report matching)

/-- The clause `process.py` builds per symptom event:
`"<symptom> at <time>"`, plus the food relation when present (Python
truthiness: a present, non-empty string different from the `.get`
default) and the frequency marker when present and non-empty. -/
def symptomClause (e : SymptomEvent) : String :=
  let entry := e.symptom ++ " at " ++ e.time_of_day
  let entry :=
    match e.relation_to_food with
    | some food => if food ≠ "" ∧ food ≠ "no food relation noted" then entry ++ " " ++ food else entry
    | none => entry
  match e.frequency_marker with
  | some f => if f ≠ "" then entry ++ " (" ++ f ++ ")" else entry
  | none => entry

/-- The clause per medication event:
`"<medication> <dose> via <route> at <time>"` plus the food relation when
truthy. -/
def medicationClause (e : MedicationEvent) : String :=
  let entry := e.medication ++ " " ++ pyStr e.dose ++ " via " ++ e.route ++ " at " ++ e.time_of_day
  match e.relation_to_food with
  | some food => if food ≠ "" then entry ++ " " ++ food else entry
  | none => entry

/-- `NursingNoteGenerator.generate_nursing_note`.  `gen` models the
FLAN-T5 Generation Service (`_generate_deterministic`); on an empty event
list the fixed placeholder is returned before `gen` is ever consulted. -/
def generate_nursing_note (gen : String → String) (symptom_events : List SymptomEvent) : String :=
  if symptom_events.isEmpty then
    "No symptoms documented during this period."
  else
    let symptom_data := symptom_events.map symptomClause
    let prompt :=
      "Write a nursing documentation note based on these reported symptoms. " ++
      "Do not diagnose or interpret. Only document what was reported. " ++
      "Use professional nursing language. " ++
      "Symptoms: " ++ String.intercalate ", " symptom_data ++ ". " ++
      "Documentation note:"
    "=== SYMPTOM DOCUMENTATION ===\n" ++ gen prompt ++
      "\n\nNote: This is documentation only. No clinical interpretation provided."

/-- `NursingNoteGenerator.generate_medication_note`. -/
def generate_medication_note (gen : String → String) (medication_events : List MedicationEvent) : String :=
  if medication_events.isEmpty then
    "No medications documented during this period."
  else
    let med_data := medication_events.map medicationClause
    let prompt :=
      "Write a medication administration record note. " ++
      "Do not provide dosage advice or recommendations. " ++
      "Only document what was taken as reported. " ++
      "Use professional nursing language. " ++
      "Medications: " ++ String.intercalate ", " med_data ++ ". " ++
      "MAR note:"
    "=== MEDICATION ADMINISTRATION RECORD ===\n" ++ gen prompt ++
      "\n\nNote: Patient-reported intake. Documentation only."

/-- The commands of the interactive loop that touch or read the session
state, with the externally supplied capture timestamp attached to the
recording commands. -/
inductive Cmd
  | recordSymptom (now text : String)
  | recordMedication (now text : String)
  | showTimeline
  | symptomFrequency (name : String)
  | medicationFrequency (name : String)
  | nurseNote
  | medNote
deriving DecidableEq, Repr

/-- The state transition of one command (queries and note generation only
read the state). -/
def step {α : Type} (embed : String → Option α) (s : State α) : Cmd → State α
  | .recordSymptom now text => (record_symptom embed now s text).1
  | .recordMedication now text => (record_medication embed now s text).1
  | .showTimeline => s
  | .symptomFrequency name => (symptom_frequency s name).1
  | .medicationFrequency name => (medication_frequency s name).1
  | .nurseNote => s
  | .medNote => s

/-- Running a command sequence from the freshly initialized system; the
reachable states are exactly the results of `run`. -/
def run {α : Type} (embed : String → Option α) (cmds : List Cmd) : State α :=
  cmds.foldl (step embed) (initState α)

/-- Whether one command performs a successful append-with-embedding (the
extraction finds a vocabulary entry and the embedding call succeeds);
this is state-independent because extraction and the canonical embedding
text depend only on the input text. -/
def cmdSuccessEmbeds {α : Type} (embed : String → Option α) : Cmd → Nat
  | .recordSymptom _ text =>
    match extract_symptom text with
    | some sym =>
      if (embed (symptomEmbedText sym (extract_time_of_day text))).isSome then 1 else 0
    | none => 0
  | .recordMedication _ text =>
    match extract_medication text with
    | some med =>
      if (embed (medicationEmbedText med (extract_dose text))).isSome then 1 else 0
    | none => 0
  | _ => 0

/-! ## Helper lemmas -/

/-- `List.find?` returns the element at the first index whose predicate
holds, when all earlier indices fail. -/
theorem find?_first {β : Type} {p : β → Bool} :
    ∀ (l : List β) (i : Nat) (hi : i < l.length), p (l.get ⟨i, hi⟩) = true →
      (∀ j (hj : j < i), p (l.get ⟨j, hj.trans hi⟩) = false) →
      l.find? p = some (l.get ⟨i, hi⟩) := by
  intro l
  induction l with
  | nil => intro i hi; exact absurd hi (Nat.not_lt_zero i)
  | cons a l ih =>
    intro i hi hp hprev
    cases i with
    | zero => exact List.find?_cons_of_pos l hp
    | succ i =>
      have ha : p a = false := hprev 0 (Nat.succ_pos i)
      rw [List.find?_cons_of_neg l (by simp [ha]), List.get_cons_succ]
      have hi' : i < l.length := Nat.lt_of_succ_lt_succ hi
      refine ih i hi' ?_ ?_
      · simpa [List.get_cons_succ] using hp
      · intro j hj
        simpa [List.get_cons_succ] using hprev (j + 1) (Nat.succ_lt_succ hj)

/-- Elements of a first-match-wins table scan: `firstKeyMatching` returns
the key at the first index whose keyword set matches. -/
theorem firstKeyMatching_eq_of_first {table : List (String × List String)} {tl : String}
    (i : Nat) (hi : i < table.length)
    (hmatch : (table.get ⟨i, hi⟩).2.any (fun p => strIn p tl) = true)
    (hprev : ∀ j (hj : j < i), (table.get ⟨j, hj.trans hi⟩).2.any (fun p => strIn p tl) = false) :
    firstKeyMatching table tl = some (table.get ⟨i, hi⟩).1 := by
  unfold firstKeyMatching
  rw [find?_first table i hi hmatch hprev]
  rfl

/-- `record_symptom` appends the built event to the symptom stream
whenever extraction succeeds, in both the successful-embedding and the
failing-embedding case. -/
theorem record_symptom_appends {α : Type} (embed : String → Option α) (now : String)
    (s : State α) (text sym : String) (hx : extract_symptom text = some sym) :
    (record_symptom embed now s text).1.symptom_events
        = s.symptom_events ++ [mkSymptomEvent now text sym] ∧
      (record_symptom embed now s text).1.medication_events = s.medication_events := by
  unfold record_symptom
  rw [hx]
  cases he : embed (symptomEmbedText sym (mkSymptomEvent now text sym).time_of_day) <;> simp [he]

/-- `record_medication` appends the built event to the medication stream
whenever extraction succeeds. -/
theorem record_medication_appends {α : Type} (embed : String → Option α) (now : String)
    (s : State α) (text med : String) (hx : extract_medication text = some med) :
    (record_medication embed now s text).1.medication_events
        = s.medication_events ++ [mkMedicationEvent now text med] ∧
      (record_medication embed now s text).1.symptom_events = s.symptom_events := by
  unfold record_medication
  rw [hx]
  cases he : embed (medicationEmbedText med (extract_dose text)) <;> simp [he]

/-- `tsLe` is transitive. -/
theorem tsLe_trans : ∀ a b c : TimelineItem, tsLe a b = true → tsLe b c = true → tsLe a c = true := by
  intro a b c hab hbc
  simp only [tsLe, decide_eq_true_eq] at *
  exact le_trans hab hbc

/-- `tsLe` is total. -/
theorem tsLe_total : ∀ a b : TimelineItem, (tsLe a b || tsLe b a) = true := by
  intro a b
  simp only [tsLe, Bool.or_eq_true, decide_eq_true_eq]
  exact le_total a.timestamp b.timestamp

/-- Each command grows the FAISS index and the parallel event store by
the same amount: one entry for a successful append-with-embedding,
nothing otherwise. -/
theorem step_lengths {α : Type} (embed : String → Option α) (c : Cmd) (s : State α) :
    (step embed s c).faiss_index.length
        = s.faiss_index.length + cmdSuccessEmbeds embed c ∧
      (step embed s c).event_store.length
        = s.event_store.length + cmdSuccessEmbeds embed c := by
  cases c with
  | recordSymptom now text =>
    simp only [step, cmdSuccessEmbeds]
    unfold record_symptom
    cases hx : extract_symptom text with
    | none => simp
    | some sym =>
      cases he : embed (symptomEmbedText sym (mkSymptomEvent now text sym).time_of_day) with
      | none => simp [mkSymptomEvent] at he ⊢; simp [he]
      | some v => simp [mkSymptomEvent] at he ⊢; simp [he]
  | recordMedication now text =>
    simp only [step, cmdSuccessEmbeds]
    unfold record_medication
    cases hx : extract_medication text with
    | none => simp
    | some med =>
      cases he : embed (medicationEmbedText med (extract_dose text)) with
      | none => simp [he]
      | some v => simp [he]
  | showTimeline => simp [step, cmdSuccessEmbeds]
  | symptomFrequency name => simp [step, cmdSuccessEmbeds, symptom_frequency]
  | medicationFrequency name => simp [step, cmdSuccessEmbeds, medication_frequency]
  | nurseNote => simp [step, cmdSuccessEmbeds]
  | medNote => simp [step, cmdSuccessEmbeds]

/-- Folding a command list adds the per-command success counts to both
parallel stores. -/
theorem foldl_lengths {α : Type} (embed : String → Option α) :
    ∀ (cmds : List Cmd) (s : State α),
      (cmds.foldl (step embed) s).faiss_index.length
          = s.faiss_index.length + (cmds.map (cmdSuccessEmbeds embed)).sum ∧
        (cmds.foldl (step embed) s).event_store.length
          = s.event_store.length + (cmds.map (cmdSuccessEmbeds embed)).sum := by
  intro cmds
  induction cmds with
  | nil => intro s; simp
  | cons c cmds ih =>
    intro s
    rw [List.foldl_cons, List.map_cons, List.sum_cons]
    obtain ⟨h1, h2⟩ := ih (step embed s c)
    obtain ⟨g1, g2⟩ := step_lengths embed c s
    constructor
    · rw [h1, g1]; omega
    · rw [h2, g2]; omega

/-! ## Claims -/

/-- Claim C3 (counterexample): the text
`"headache with chest pain and back pain"` contains both `"chest pain"`
and `"back pain"`, yet `extract_symptom` returns `"headache"`, not
`"chest pain"`, because `"headache"` comes first in the vocabulary. -/
theorem C3_counterexample :
    strIn "chest pain" (pyLower "headache with chest pain and back pain") = true ∧
      strIn "back pain" (pyLower "headache with chest pain and back pain") = true ∧
      extract_symptom "headache with chest pain and back pain" ≠ some "chest pain" ∧
      extract_symptom "headache with chest pain and back pain" = some "headache" := by
  refine ⟨by decide, by decide, by decide, by decide⟩

/-- Claim C3 (amended): `extract_symptom` performs a case-insensitive
substring scan and returns the first vocabulary entry (in the fixed list
order) occurring in the text, independently of the substring positions;
it returns `none` when no entry occurs; and a text containing both
`"chest pain"` and `"back pain"` yields `"chest pain"` provided no
earlier-listed entry (that is, `"headache"`) also occurs. -/
theorem extract_symptom_vocab_order (text : String) :
    (∀ i (hi : i < symptoms.length),
        strIn (symptoms.get ⟨i, hi⟩) (pyLower text) = true →
        (∀ j (hj : j < i), strIn (symptoms.get ⟨j, hj.trans hi⟩) (pyLower text) = false) →
        extract_symptom text = some (symptoms.get ⟨i, hi⟩)) ∧
      ((∀ s ∈ symptoms, strIn s (pyLower text) = false) → extract_symptom text = none) ∧
      (strIn "chest pain" (pyLower text) = true →
        strIn "headache" (pyLower text) = false →
        extract_symptom text = some "chest pain") := by
  refine ⟨?_, ?_, ?_⟩
  · intro i hi hp hprev
    exact find?_first (p := fun s => strIn s (pyLower text)) symptoms i hi hp hprev
  · intro hall
    unfold extract_symptom
    exact List.find?_eq_none.mpr (by intro x hx; simp [hall x hx])
  · intro hcp hhd
    have h := find?_first (p := fun s => strIn s (pyLower text)) symptoms 1 (by decide)
      (by simpa [symptoms] using hcp)
      (by
        intro j hj
        have hj0 : j = 0 := Nat.lt_one_iff.mp hj
        subst hj0
        simpa [symptoms] using hhd)
    simpa [symptoms, extract_symptom] using h

/-- Claim C3 (witness for the amended theorem): the text
`"chest pain and back pain"` contains both pain phrases and no
earlier-listed entry, and extraction returns `"chest pain"`. -/
theorem extract_symptom_vocab_order_witness :
    extract_symptom "chest pain and back pain" = some "chest pain" :=
  (extract_symptom_vocab_order "chest pain and back pain").2.2 (by decide) (by decide)

/-- Claim C4: `extract_time_of_day` first tries the literal clock-time
pattern and returns the matched substring verbatim; otherwise it scans
the categorical keyword sets in the fixed order morning, afternoon,
evening, night and returns the first category one of whose keywords
occurs in the lowercased text; otherwise it returns the sentinel
`"unspecified time"`. -/
theorem extract_time_of_day_spec (text : String) :
    time_patterns.map Prod.fst = ["morning", "afternoon", "evening", "night"] ∧
      (∀ m, clockSearch (pyLower text).data = some m →
        extract_time_of_day text = String.mk m) ∧
      (clockSearch (pyLower text).data = none →
        ∀ i (hi : i < time_patterns.length),
          (time_patterns.get ⟨i, hi⟩).2.any (fun p => strIn p (pyLower text)) = true →
          (∀ j (hj : j < i),
            (time_patterns.get ⟨j, hj.trans hi⟩).2.any (fun p => strIn p (pyLower text)) = false) →
          extract_time_of_day text = (time_patterns.get ⟨i, hi⟩).1) ∧
      (clockSearch (pyLower text).data = none →
        (∀ kv ∈ time_patterns, kv.2.any (fun p => strIn p (pyLower text)) = false) →
        extract_time_of_day text = "unspecified time") := by
  refine ⟨by decide, ?_, ?_, ?_⟩
  · intro m hm
    simp only [extract_time_of_day, hm]
  · intro hclock i hi hmatch hprev
    simp only [extract_time_of_day, hclock, firstKeyMatching_eq_of_first i hi hmatch hprev]
  · intro hclock hall
    have hfk : firstKeyMatching time_patterns (pyLower text) = none := by
      unfold firstKeyMatching
      rw [List.find?_eq_none.mpr (by intro kv hkv; simp [hall kv hkv])]
      rfl
    simp only [extract_time_of_day, hclock, hfk]

/-- Claim C4 (witness): a clock-time text returns the literal lowercase
match, and a keyword text returns its category. -/
theorem extract_time_of_day_spec_witness :
    extract_time_of_day "took it at 8 AM" = "8 am" ∧
      extract_time_of_day "felt dizzy after dinner" = "evening" := by
  constructor
  · exact (extract_time_of_day_spec "took it at 8 AM").2.1 "8 am".data (by decide)
  · refine (extract_time_of_day_spec "felt dizzy after dinner").2.2.1 (by decide) 2 (by decide)
      (by decide) ?_
    intro j hj
    have hj2 : j = 0 ∨ j = 1 := by omega
    rcases hj2 with h | h <;> subst h
    · show (["morning", "am", "breakfast"].any
        fun p => strIn p (pyLower "felt dizzy after dinner")) = false
      decide
    · show (["afternoon", "lunch", "noon"].any
        fun p => strIn p (pyLower "felt dizzy after dinner")) = false
      decide

/-- Claim C10: any text whose lowercase form contains the two-letter
substring `"am"` (even inside a longer word) and has no clock-time match
is classified as `"morning"`, because `"am"` is a keyword of the first
category scanned. -/
theorem am_substring_forces_morning (text : String)
    (hclock : clockSearch (pyLower text).data = none)
    (ham : strIn "am" (pyLower text) = true) :
    extract_time_of_day text = "morning" := by
  have hfk : firstKeyMatching time_patterns (pyLower text) = some "morning" := by
    unfold firstKeyMatching time_patterns
    rw [List.find?_cons_of_pos _ (by simp [List.any_cons, ham])]
    rfl
  simp only [extract_time_of_day, hclock, hfk]

/-- Claim C10 (witness): `"took paracetamol tonight"` contains `"am"`
inside `"paracetamol"` and a keyword of the later category night, yet is
classified as `"morning"`. -/
theorem am_substring_forces_morning_witness :
    extract_time_of_day "took paracetamol tonight" = "morning" :=
  am_substring_forces_morning "took paracetamol tonight" (by decide) (by decide)

/-- Claim C9: for the input `"Gave metformin 1000mg in morning"`,
extraction yields medication `"metformin"`, dose `"1000mg"` (found by the
milligram pattern, the first dose pattern tried), and time of day
`"morning"`. -/
theorem metformin_end_to_end :
    extract_medication "Gave metformin 1000mg in morning" = some "metformin" ∧
      extract_dose "Gave metformin 1000mg in morning" = some "1000mg" ∧
      reSearch (doseNumUnitAt ['m', 'g']) (pyLower "Gave metformin 1000mg in morning").data
          = some "1000mg".data ∧
      extract_time_of_day "Gave metformin 1000mg in morning" = "morning" := by
  refine ⟨by decide, by decide, by decide, by decide⟩

/-- Claim C5: when no vocabulary entry is recognized in the text, the
recording operations leave the state entirely unchanged and surface the
distinguishable no-match outcome carrying the truncated (first ten
entries) vocabulary sample. -/
theorem no_match_refuses {α : Type} (embed : String → Option α) (now : String)
    (s : State α) (text : String) :
    (extract_symptom text = none →
        record_symptom embed now s text
          = (s, Outcome.noSymptomMatch (String.intercalate ", " (symptoms.take 10)))) ∧
      (extract_medication text = none →
        record_medication embed now s text
          = (s, Outcome.noMedicationMatch (String.intercalate ", " (medications.take 10)))) := by
  constructor
  · intro hx; unfold record_symptom; rw [hx]
  · intro hx; unfold record_medication; rw [hx]

/-- Claim C5 (witness): `"hello world"` matches neither vocabulary; both
recorders return the unchanged initial state and the guidance outcome. -/
theorem no_match_refuses_witness :
    record_symptom (fun _ => (none : Option Nat)) "2026-02-01T10:00" (initState Nat) "hello world"
        = (initState Nat, Outcome.noSymptomMatch (String.intercalate ", " (symptoms.take 10))) ∧
      record_medication (fun _ => (none : Option Nat)) "2026-02-01T10:00" (initState Nat) "hello world"
        = (initState Nat, Outcome.noMedicationMatch (String.intercalate ", " (medications.take 10))) :=
  ⟨(no_match_refuses _ _ _ _).1 (by decide), (no_match_refuses _ _ _ _).2 (by decide)⟩

/-- Claim C8: called with an empty event list, the note generators return
their fixed placeholder strings, and the result does not depend on the
Generation Service at all (it is never invoked). -/
theorem empty_note_guard (gen gen2 : String → String) :
    generate_nursing_note gen [] = "No symptoms documented during this period." ∧
      generate_medication_note gen [] = "No medications documented during this period." ∧
      generate_nursing_note gen [] = generate_nursing_note gen2 [] ∧
      generate_medication_note gen [] = generate_medication_note gen2 [] := by
  refine ⟨rfl, rfl, rfl, rfl⟩

/-- Claim C1 (counterexample): immediately after initialization the
Timeline Store holds the four seeded demo events while the Vector Index
is empty, so the vector count does not equal the count of events stored
in the Timeline Store. -/
theorem C1_counterexample :
    (initState Nat).symptom_events.length + (initState Nat).medication_events.length = 4 ∧
      (initState Nat).faiss_index.length = 0 ∧
      (initState Nat).faiss_index.length
        ≠ (initState Nat).symptom_events.length + (initState Nat).medication_events.length := by
  refine ⟨by decide, by decide, by decide⟩

/-- Claim C1 (amended): at every reachable state the Vector Index and the
parallel event-reference store have equal length, and that length equals
the number of successful appends that also triggered embedding since
initialization.  The seeded demo events are never embedded, so they are
excluded from the correspondence: the invariant ties the index to the
reference store and to the post-initialization appends, not to the full
Timeline Store contents. -/
theorem vector_index_tracks_appends {α : Type} (embed : String → Option α) (cmds : List Cmd) :
    (run embed cmds).faiss_index.length = (run embed cmds).event_store.length ∧
      (run embed cmds).faiss_index.length = (cmds.map (cmdSuccessEmbeds embed)).sum := by
  obtain ⟨h1, h2⟩ := foldl_lengths embed cmds (initState α)
  unfold run
  rw [h1, h2]
  simp [initState]

/-- Claim C2 (counterexample): with an embedding service that raises
(modelled by returning `none`), `record_symptom` on `"headache"` leaves
the system partially updated: the Timeline Store gained the event while
the Vector Index and the event-reference store gained nothing. -/
theorem C2_counterexample :
    (record_symptom (fun _ => (none : Option Nat)) "2026-02-01T10:00"
        (initState Nat) "headache").1.symptom_events.length = 3 ∧
      (record_symptom (fun _ => (none : Option Nat)) "2026-02-01T10:00"
        (initState Nat) "headache").1.faiss_index.length = 0 ∧
      (record_symptom (fun _ => (none : Option Nat)) "2026-02-01T10:00"
        (initState Nat) "headache").1.event_store.length = 0 ∧
      (record_symptom (fun _ => (none : Option Nat)) "2026-02-01T10:00"
        (initState Nat) "headache").2 = Outcome.embedFailed := by
  refine ⟨by decide, by decide, by decide, by decide⟩

/-- Claim C2 (amended): the Vector Index and its parallel reference store
are updated atomically with respect to each other — either both gain
exactly one entry or neither changes, so no vector is ever added without
its event reference — but the Timeline Store append precedes the
embedding call, so when the embedding step fails after a successful
extraction the event stays appended to the timeline while the Vector
Index and the reference store are left unchanged. -/
theorem record_atomicity_shape {α : Type} (embed : String → Option α) (now : String)
    (s : State α) (text : String) :
    (((record_symptom embed now s text).1.faiss_index = s.faiss_index ∧
        (record_symptom embed now s text).1.event_store = s.event_store) ∨
      (∃ v ev, (record_symptom embed now s text).1.faiss_index = s.faiss_index ++ [v] ∧
        (record_symptom embed now s text).1.event_store
          = s.event_store ++ [StoredEvent.symptom ev] ∧
        (record_symptom embed now s text).1.symptom_events = s.symptom_events ++ [ev])) ∧
      (((record_medication embed now s text).1.faiss_index = s.faiss_index ∧
        (record_medication embed now s text).1.event_store = s.event_store) ∨
      (∃ v ev, (record_medication embed now s text).1.faiss_index = s.faiss_index ++ [v] ∧
        (record_medication embed now s text).1.event_store
          = s.event_store ++ [StoredEvent.medication ev] ∧
        (record_medication embed now s text).1.medication_events
          = s.medication_events ++ [ev])) ∧
      (∀ sym, extract_symptom text = some sym →
        embed (symptomEmbedText sym (extract_time_of_day text)) = none →
        (record_symptom embed now s text).1
            = { s with symptom_events := s.symptom_events ++ [mkSymptomEvent now text sym] } ∧
          (record_symptom embed now s text).2 = Outcome.embedFailed) ∧
      (∀ med, extract_medication text = some med →
        embed (medicationEmbedText med (extract_dose text)) = none →
        (record_medication embed now s text).1
            = { s with medication_events := s.medication_events ++ [mkMedicationEvent now text med] } ∧
          (record_medication embed now s text).2 = Outcome.embedFailed) := by
  refine ⟨?_, ?_, ?_, ?_⟩
  · unfold record_symptom
    cases hx : extract_symptom text with
    | none => exact Or.inl ⟨rfl, rfl⟩
    | some sym =>
      cases he : embed (symptomEmbedText sym (mkSymptomEvent now text sym).time_of_day) with
      | none => exact Or.inl (by simp [he])
      | some v => exact Or.inr ⟨v, mkSymptomEvent now text sym, by simp [he]⟩
  · unfold record_medication
    cases hx : extract_medication text with
    | none => exact Or.inl ⟨rfl, rfl⟩
    | some med =>
      cases he : embed (medicationEmbedText med (extract_dose text)) with
      | none => exact Or.inl (by simp [he])
      | some v => exact Or.inr ⟨v, mkMedicationEvent now text med, by simp [he]⟩
  · intro sym hx he
    unfold record_symptom
    rw [hx]
    have he2 : embed (symptomEmbedText sym (mkSymptomEvent now text sym).time_of_day) = none := by
      simpa [mkSymptomEvent] using he
    simp [he2]
  · intro med hx he
    unfold record_medication
    rw [hx]
    simp [he]

/-- Claim C2 (witness for the amended theorem): a failing embedding after
extracting `"headache"` leaves exactly the timeline updated and reports
the propagated failure. -/
theorem record_atomicity_shape_witness :
    (record_symptom (fun _ => (none : Option Nat)) "2026-02-01T10:00"
        (initState Nat) "headache").1
        = { initState Nat with
            symptom_events := (initState Nat).symptom_events
              ++ [mkSymptomEvent "2026-02-01T10:00" "headache" "headache"] } ∧
      (record_symptom (fun _ => (none : Option Nat)) "2026-02-01T10:00"
        (initState Nat) "headache").2 = Outcome.embedFailed :=
  (record_atomicity_shape (fun _ => (none : Option Nat)) "2026-02-01T10:00"
    (initState Nat) "headache").2.2.1 "headache" (by decide) rfl

/-- Claim C6: the global timeline merges the two streams and sorts them
by timestamp with a stable sort: the result is non-decreasing in
timestamp; the items carrying any fixed timestamp keep the relative
order they had in the merged input (symptom stream then medication
stream, each in insertion order); the item of an event just appended by
a recorder appears in the subsequent global timeline; and an empty store
yields the placeholder view rather than an error. -/
theorem global_timeline_spec {α : Type} (embed : String → Option α) (now : String)
    (s : State α) (text : String) :
    List.Pairwise (fun a b => tsLe a b = true) (sortedTimelineItems s) ∧
      (∀ ts : String, (sortedTimelineItems s).filter (fun it => it.timestamp == ts)
          = (allTimelineItems s).filter (fun it => it.timestamp == ts)) ∧
      (∀ sym, extract_symptom text = some sym →
        symptomItem (mkSymptomEvent now text sym)
          ∈ sortedTimelineItems (record_symptom embed now s text).1) ∧
      (∀ med, extract_medication text = some med →
        medicationItem (mkMedicationEvent now text med)
          ∈ sortedTimelineItems (record_medication embed now s text).1) ∧
      (s.symptom_events = [] → s.medication_events = [] →
        show_timeline s = TimelineView.noEvents) := by
  refine ⟨List.sorted_mergeSort tsLe_trans tsLe_total _, ?_, ?_, ?_, ?_⟩
  · intro ts
    have hmem : ∀ a ∈ (allTimelineItems s).filter (fun it => it.timestamp == ts),
        a.timestamp = ts := by
      intro a ha
      have h2 := (List.mem_filter.mp ha).2
      exact beq_iff_eq.mp h2
    have hpair : ((allTimelineItems s).filter (fun it => it.timestamp == ts)).Pairwise
        (fun a b => tsLe a b = true) := by
      refine List.pairwise_of_forall_mem_list ?_
      intro a ha b hb
      simp [tsLe, hmem a ha, hmem b hb]
    have hsub : ((allTimelineItems s).filter (fun it => it.timestamp == ts)).Sublist
        (sortedTimelineItems s) :=
      List.sublist_mergeSort tsLe_trans tsLe_total hpair (List.filter_sublist _)
    have hself : ((allTimelineItems s).filter (fun it => it.timestamp == ts)).filter
          (fun it => it.timestamp == ts)
        = (allTimelineItems s).filter (fun it => it.timestamp == ts) :=
      List.filter_eq_self.mpr (fun a ha => (List.mem_filter.mp ha).2)
    have hsub2 : ((allTimelineItems s).filter (fun it => it.timestamp == ts)).Sublist
        ((sortedTimelineItems s).filter (fun it => it.timestamp == ts)) := by
      have h3 := hsub.filter (fun it => it.timestamp == ts)
      rwa [hself] at h3
    have hlen : ((sortedTimelineItems s).filter (fun it => it.timestamp == ts)).length
        = ((allTimelineItems s).filter (fun it => it.timestamp == ts)).length :=
      (List.Perm.filter _ (List.mergeSort_perm _ tsLe)).length_eq
    exact (hsub2.eq_of_length hlen.symm).symm
  · intro sym hx
    have happ := record_symptom_appends embed now s text sym hx
    unfold sortedTimelineItems
    rw [List.mem_mergeSort]
    unfold allTimelineItems
    rw [happ.1, happ.2]
    simp
  · intro med hx
    have happ := record_medication_appends embed now s text med hx
    unfold sortedTimelineItems
    rw [List.mem_mergeSort]
    unfold allTimelineItems
    rw [happ.1, happ.2]
    simp
  · intro h1 h2
    simp [show_timeline, sortedTimelineItems, allTimelineItems, h1, h2]

/-- Claim C6 (witness): the initial state's timeline is sorted; the
timeline after recording `"headache"` contains the new item; the emptied
store shows the placeholder. -/
theorem global_timeline_spec_witness :
    List.Pairwise (fun a b => tsLe a b = true) (sortedTimelineItems (initState Nat)) ∧
      symptomItem (mkSymptomEvent "2026-02-01T10:00" "headache" "headache")
        ∈ sortedTimelineItems
            (record_symptom (fun _ => (some 0 : Option Nat)) "2026-02-01T10:00"
              (initState Nat) "headache").1 ∧
      show_timeline { initState Nat with symptom_events := [], medication_events := [] }
        = TimelineView.noEvents :=
  ⟨(global_timeline_spec (fun _ => (some 0 : Option Nat)) "2026-02-01T10:00"
      (initState Nat) "headache").1,
   (global_timeline_spec (fun _ => (some 0 : Option Nat)) "2026-02-01T10:00"
      (initState Nat) "headache").2.2.1 "headache" (by decide),
   (global_timeline_spec (fun _ => (some 0 : Option Nat)) "2026-02-01T10:00"
      { initState Nat with symptom_events := [], medication_events := [] }
      "headache").2.2.2.2 rfl rfl⟩

/-- Claim C7: the by-name frequency queries return exactly the events of
the queried stream whose name equals the query under case-insensitive
comparison, in insertion order (a sublist of the stream); an empty match
yields the distinguishable no-instances outcome; and the queries never
mutate the store. -/
theorem frequency_query_spec {α : Type} (s : State α) (q : String) :
    (symptom_frequency s q).1 = s ∧
      (medication_frequency s q).1 = s ∧
      List.Sublist (matchingSymptoms s q) s.symptom_events ∧
      (∀ e, e ∈ matchingSymptoms s q
        ↔ e ∈ s.symptom_events ∧ pyLower e.symptom = pyLower q) ∧
      (matchingSymptoms s q = [] →
        (symptom_frequency s q).2 = FreqReport.noInstances q) ∧
      (matchingSymptoms s q ≠ [] →
        (symptom_frequency s q).2 = FreqReport.report (matchingSymptoms s q)) ∧
      List.Sublist (matchingMedications s q) s.medication_events ∧
      (∀ e, e ∈ matchingMedications s q
        ↔ e ∈ s.medication_events ∧ pyLower e.medication = pyLower q) ∧
      (matchingMedications s q = [] →
        (medication_frequency s q).2 = FreqReport.noInstances q) ∧
      (matchingMedications s q ≠ [] →
        (medication_frequency s q).2 = FreqReport.report (matchingMedications s q)) := by
  refine ⟨rfl, rfl, List.filter_sublist _, ?_, ?_, ?_, List.filter_sublist _, ?_, ?_, ?_⟩
  · intro e
    simp [matchingSymptoms, List.mem_filter]
  · intro h
    simp [symptom_frequency, h]
  · intro h
    simp [symptom_frequency, List.isEmpty_eq_false.mpr h]
  · intro e
    simp [matchingMedications, List.mem_filter]
  · intro h
    simp [medication_frequency, h]
  · intro h
    simp [medication_frequency, List.isEmpty_eq_false.mpr h]

/-- Claim C7 (witness): querying `"fever"` against the initial store
matches nothing and yields the no-instances outcome; querying
`"HEADACHE"` matches the seeded headache event case-insensitively. -/
theorem frequency_query_spec_witness :
    (symptom_frequency (initState Nat) "fever").2 = FreqReport.noInstances "fever" ∧
      (symptom_frequency (initState Nat) "HEADACHE").2
        = FreqReport.report (matchingSymptoms (initState Nat) "HEADACHE") :=
  ⟨(frequency_query_spec (initState Nat) "fever").2.2.2.2.1 (by decide),
   (frequency_query_spec (initState Nat) "HEADACHE").2.2.2.2.2.1 (by decide)⟩

end ClinicalDoc
